import Mathlib

/-!
Verification development for the voicelive-api-salescoach repository.

The definitions below are shallow embeddings of the repository's code:

* the backend WebSocket relay (`_forward_client_to_azure`,
  `_forward_azure_to_client` in `backend/src/services/websocket_handler.py`),
* the upstream URL builder (`_build_azure_websocket_url`),
* the session configuration (`session_config`, `_connect_to_azure`),
* the agent factory (`AgentManager.create_agent`, `BASE_INSTRUCTIONS` in
  `backend/src/services/managers.py`),
* the frontend `App` component (`handleWebRTCMessage`, `sendOffer`,
  `sendAudioChunk`, `handleAnalyze`) and the `ChatPanel` analyze control.

Effectful code (WebSocket sends, React state updates) is modelled by pure
functions from inputs to the sequence of emitted messages / the resulting
action, with message streams represented as lists in arrival order.
-/

namespace SalesCoach

/-- A JSON-framed WebSocket message: the relay inspects `json.loads(message)["type"]`
and forwards the raw message unchanged.  `payload` stands for the rest of the
raw message text. -/
structure WsMessage where
  type : String
  payload : String
deriving DecidableEq, Repr

/-- Embedding of `_forward_client_to_azure` (websocket_handler.py): for each
message arriving on the client socket, it parses the JSON and sends the raw
message on to Azure only when `data['type'] == 'input_audio_buffer.append'`;
no other branch sends anything.  On a whole inbound stream this is a filter. -/
def _forward_client_to_azure (msgs : List WsMessage) : List WsMessage :=
  msgs.filter (fun m => m.type == "input_audio_buffer.append")

/-- Embedding of `_forward_azure_to_client` (websocket_handler.py): for each
message arriving from Azure, the raw message is sent to the client only when
`data['type'] == 'response.audio.delta'`. -/
def _forward_azure_to_client (msgs : List WsMessage) : List WsMessage :=
  msgs.filter (fun m => m.type == "response.audio.delta")

/-- The query parameters of the upstream WebSocket URL built by
`_build_azure_websocket_url`.  `model` and `agentId` are `Option`s: `some`
exactly when the corresponding key is put into the `params` dict. -/
structure UrlParams where
  apiVersion : String
  clientRequestId : String
  model : Option String
  agentId : Option String
deriving DecidableEq, Repr

/-- Embedding of `_build_azure_websocket_url` (websocket_handler.py).  The
Python builds `params = {"api-version": ..., "x-ms-client-request-id": uuid}`
and then, branching on `agent_id.startswith("local-agent")`, sets either
`params["model"] = config["model_deployment_name"]` or
`params["agent-id"] = agent_id`.  The fresh UUID and the configured deployment
name are passed in as arguments. -/
def _build_azure_websocket_url (agent_id : String)
    (model_deployment_name : String) (uuid : String) : UrlParams :=
  if agent_id.startsWith "local-agent" then
    { apiVersion := "2025-05-01-preview", clientRequestId := uuid,
      model := some model_deployment_name, agentId := none }
  else
    { apiVersion := "2025-05-01-preview", clientRequestId := uuid,
      model := none, agentId := some agent_id }

/-- The condition under which, per the spec, the builder must fail with
`InvalidRouting`: neither or both of the `model` / `agent-id` parameters would
be set. -/
def invalidRoutingCondition (p : UrlParams) : Bool :=
  (p.model.isSome && p.agentId.isSome) || (p.model.isNone && p.agentId.isNone)

/-- The per-agent arguments `_connect_to_azure` hands to
`_send_session_update`: `instructions` is `None` for Azure (persistent)
agents and the agent's stored instructions for local (ephemeral) ones;
`temperature` is always the agent's stored temperature. -/
structure SessionUpdateArgs where
  instructions : Option String
  temperature : ℚ
deriving DecidableEq, Repr

/-- The fields of the `session.update` payload assembled in
`websocket_handler.py` (`session_config`).  The audio/voice/avatar fields are
literals in the source; `instructions` and `temperature` are the varying
parts fed in by `_send_session_update`. -/
structure SessionConfig where
  modalities : List String
  turn_detection_type : String
  input_audio_noise_reduction_type : String
  input_audio_echo_cancellation_type : String
  avatar_character : String
  avatar_style : String
  voice_name : String
  instructions : Option String
  temperature : ℚ
  max_response_output_tokens : String
deriving DecidableEq, Repr

/-- Embedding of the `session_config` dict from websocket_handler.py, with
the scenario-dependent `instructions` and `temperature` abstracted as
arguments (they are the values `_send_session_update` supplies). -/
def session_config (instructions : Option String) (temperature : ℚ) :
    SessionConfig :=
  { modalities := ["text", "audio"],
    turn_detection_type := "azure_semantic_vad",
    input_audio_noise_reduction_type := "azure_deep_noise_suppression",
    input_audio_echo_cancellation_type := "server_echo_cancellation",
    avatar_character := "lisa",
    avatar_style := "casual-sitting",
    voice_name := "en-US-Ava:DragonHDLatestNeural",
    instructions := instructions,
    temperature := temperature,
    max_response_output_tokens := "inf" }

/-- An agent record as stored in the in-memory registry of `AgentManager`.
`instructions` is an `Option` because Azure-agent records carry no
`"instructions"` key while local-agent records do.  `type` is the stored
`"local"` / `"azure"` discriminator. -/
structure Agent where
  id : String
  scenario_id : String
  instructions : Option String
  model : String
  temperature : ℚ
  type : String
deriving DecidableEq, Repr

/-- Embedding of the configuration branch of `_connect_to_azure`
(websocket_handler.py): for `agent_data["type"] == "local"` it calls
`_send_session_update(azure_ws, instructions=agent_data["instructions"],
temperature=agent_data["temperature"])`; otherwise it passes
`instructions=None` and the same `temperature=agent_data["temperature"]`.
The result is the `session.update` payload sent upstream. -/
def _connect_to_azure (agent_data : Agent) : SessionConfig :=
  if agent_data.type = "local" then
    session_config agent_data.instructions agent_data.temperature
  else
    session_config none agent_data.temperature

/-- The `BASE_INSTRUCTIONS` constant of `AgentManager` (managers.py): a
Python triple-quoted string, so it begins with a newline after the opening
quotes and ends with the closing indentation. -/
def BASE_INSTRUCTIONS : String :=
  "\n    CRITICAL INTERACTION GUIDELINES:\n    - You are playing the role of a CUSTOMER\n    - The user is the health insurance SELLER practicing skills\n    - Keep responses SHORT (max 3 sentences, phone style)\n    - ALWAYS stay in character - never break role\n    - Simulate natural speech: pauses, \"um\", hesitation\n    - Show genuine human emotions appropriate to situation\n    - Ask follow-up questions naturally\n    - Avoid robotic language - speak like a real customer\n    "

/-- One entry of a scenario's `messages` list (YAML: `role`, `content`). -/
structure ScenarioMessage where
  role : String
  content : String
deriving DecidableEq, Repr

/-- The scenario configuration consumed by `AgentManager.create_agent`:
`messages`, optional `model` and optional `modelParameters.temperature`
(`none` models a missing YAML key, read with `.get` and a default). -/
structure ScenarioData where
  messages : List ScenarioMessage
  model : Option String
  modelParameters_temperature : Option ℚ
deriving DecidableEq, Repr

/-- The arguments `create_agent` passes on to `_create_local_agent` /
`_create_azure_agent` (the part of the agent record derived from the
scenario). -/
structure CreateAgentArgs where
  instructions : String
  model_name : String
  temperature : ℚ
deriving DecidableEq, Repr

/-- Embedding of `AgentManager.create_agent` (managers.py):
`scenario_instructions = scenario_data["messages"][0]["content"]`,
`combined_instructions = scenario_instructions + self.BASE_INSTRUCTIONS`,
`model_name = scenario_data.get("model", "gpt-4o")`,
`temperature = scenario_data.get("modelParameters", {}).get("temperature", 0.7)`.
Indexing `[0]` into an empty `messages` list raises in Python, modelled by
`none`. -/
def create_agent (scenario_data : ScenarioData) : Option CreateAgentArgs :=
  match scenario_data.messages.head? with
  | none => none
  | some msg0 =>
    let scenario_instructions := msg0.content
    let combined_instructions := scenario_instructions ++ BASE_INSTRUCTIONS
    let model_name := scenario_data.model.getD "gpt-4o"
    let temperature := scenario_data.modelParameters_temperature.getD (7/10)
    some { instructions := combined_instructions, model_name := model_name,
           temperature := temperature }

/-- A JavaScript value as seen by the `handleWebRTCMessage` fallback chains:
`undef` models `undefined` (a missing key or broken optional chain), `str` a
string, `arr` an ICE-server array.  Truthiness follows JavaScript: `undefined`
is falsy, a string is truthy iff non-empty, an array is always truthy. -/
inductive JSVal where
  | undef
  | str (s : String)
  | arr (elems : List String)
deriving DecidableEq, Repr

/-- JavaScript truthiness of a `JSVal`. -/
def JSVal.truthy : JSVal → Bool
  | .undef => false
  | .str s => s != ""
  | .arr _ => true

/-- JavaScript `a || b`: `a` when truthy, otherwise `b`. -/
def jsOr (a b : JSVal) : JSVal :=
  if a.truthy then a else b

/-- The `session.avatar` object of a `session.updated` message, with the
connectivity keys `handleWebRTCMessage` probes. -/
structure AvatarSection where
  ice_servers : JSVal
  username : JSVal
  ice_username : JSVal
  credential : JSVal
  ice_credential : JSVal
deriving DecidableEq, Repr

/-- The `session.rtc` object, with its legacy connectivity keys. -/
structure RtcSection where
  ice_servers : JSVal
  ice_username : JSVal
  ice_credential : JSVal
deriving DecidableEq, Repr

/-- The `session` object of a `session.updated` message: the optional
`avatar` and `rtc` sub-objects plus the top-level legacy keys. -/
structure SessionObj where
  avatar : Option AvatarSection
  rtc : Option RtcSection
  ice_servers : JSVal
  ice_username : JSVal
  ice_credential : JSVal
deriving DecidableEq, Repr

/-- An inbound message as inspected by `handleWebRTCMessage` in `App.tsx`. -/
structure WebRTCMsg where
  type : String
  session : Option SessionObj
  server_sdp : JSVal
  sdp : JSVal
  answer : JSVal
deriving DecidableEq, Repr

/-- Optional chaining `session?.avatar?.<field>`. -/
def chainAvatar (s : Option SessionObj) (f : AvatarSection → JSVal) : JSVal :=
  match s with
  | none => .undef
  | some so =>
    match so.avatar with
    | none => .undef
    | some a => f a

/-- Optional chaining `session?.rtc?.<field>`. -/
def chainRtc (s : Option SessionObj) (f : RtcSection → JSVal) : JSVal :=
  match s with
  | none => .undef
  | some so =>
    match so.rtc with
    | none => .undef
    | some r => f r

/-- Optional chaining `session?.<field>` (top-level key). -/
def chainTop (s : Option SessionObj) (f : SessionObj → JSVal) : JSVal :=
  match s with
  | none => .undef
  | some so => f so

/-- `session?.avatar?.ice_servers || session?.rtc?.ice_servers ||
session?.ice_servers` from `handleWebRTCMessage`. -/
def extractServers (s : Option SessionObj) : JSVal :=
  jsOr (chainAvatar s (fun a => a.ice_servers))
    (jsOr (chainRtc s (fun r => r.ice_servers))
      (chainTop s (fun so => so.ice_servers)))

/-- `session?.avatar?.username || session?.avatar?.ice_username ||
session?.rtc?.ice_username || session?.ice_username`. -/
def extractUsername (s : Option SessionObj) : JSVal :=
  jsOr (chainAvatar s (fun a => a.username))
    (jsOr (chainAvatar s (fun a => a.ice_username))
      (jsOr (chainRtc s (fun r => r.ice_username))
        (chainTop s (fun so => so.ice_username))))

/-- `session?.avatar?.credential || session?.avatar?.ice_credential ||
session?.rtc?.ice_credential || session?.ice_credential`. -/
def extractCredential (s : Option SessionObj) : JSVal :=
  jsOr (chainAvatar s (fun a => a.credential))
    (jsOr (chainAvatar s (fun a => a.ice_credential))
      (jsOr (chainRtc s (fun r => r.ice_credential))
        (chainTop s (fun so => so.ice_credential))))

/-- The effect of one `handleWebRTCMessage` call: either nothing, a
`setupWebRTC(servers, username, credential)` call on the media-negotiation
collaborator, or a `handleAnswer(msg)` call. -/
inductive WebRTCAction where
  | noAction
  | setupCall (servers username credential : JSVal)
  | answerCall
deriving DecidableEq, Repr

/-- Embedding of `handleWebRTCMessage` (App.tsx): on `session.updated` it
extracts servers/username/credential through the ordered fallback chains and
calls `setupWebRTC` when `servers` is truthy; otherwise, a message carrying
`server_sdp`/`sdp`/`answer` whose type is not `session.update` goes to
`handleAnswer`. -/
def handleWebRTCMessage (msg : WebRTCMsg) : WebRTCAction :=
  if msg.type = "session.updated" then
    let servers := extractServers msg.session
    let username := extractUsername msg.session
    let credential := extractCredential msg.session
    if servers.truthy then .setupCall servers username credential
    else .noAction
  else if (msg.server_sdp.truthy || msg.sdp.truthy || msg.answer.truthy)
      && msg.type != "session.update" then
    .answerCall
  else
    .noAction

/-- An outbound client→backend message as built in `App.tsx` (`send({...})`). -/
structure OutboundMessage where
  type : String
  client_sdp : Option String
  audio : Option String
deriving DecidableEq, Repr

/-- The shared outbound channel of `useRealtime`: `send` appends one message
to the single ordered outbound stream, modelled as the list of messages sent
so far. -/
def send (outbound : List OutboundMessage) (msg : OutboundMessage) :
    List OutboundMessage :=
  outbound ++ [msg]

/-- Embedding of `sendOffer` (App.tsx):
`send({ type: 'session.avatar.connect', client_sdp: sdp })`. -/
def sendOffer (outbound : List OutboundMessage) (sdp : String) :
    List OutboundMessage :=
  send outbound
    { type := "session.avatar.connect", client_sdp := some sdp, audio := none }

/-- Embedding of `sendAudioChunk` (App.tsx):
`send({ type: 'input_audio_buffer.append', audio: base64 })`. -/
def sendAudioChunk (outbound : List OutboundMessage) (base64 : String) :
    List OutboundMessage :=
  send outbound
    { type := "input_audio_buffer.append", client_sdp := none,
      audio := some base64 }

/-- One recorded conversation turn (`{ role, content }`). -/
structure Turn where
  role : String
  content : String
deriving DecidableEq, Repr

/-- A chat message as displayed by `ChatPanel` (`{ id, role, content }`). -/
structure Message where
  id : String
  role : String
  content : String
deriving DecidableEq, Repr

/-- The snapshot returned by `getRecordings()`: the recorded conversation
turns and the recorded audio segments. -/
structure Recordings where
  conversation : List Turn
  audio : List String
deriving DecidableEq, Repr

/-- JavaScript `Array.prototype.join(sep)`: elements concatenated with `sep`
between consecutive elements. -/
def joinWith (sep : String) : List String → String
  | [] => ""
  | [a] => a
  | a :: b :: rest => a ++ sep ++ joinWith sep (b :: rest)

/-- The transcript built in `handleAnalyze` (App.tsx):
`recordings.conversation` mapped turn-by-turn to `${m.role}: ${m.content}`
and joined with newline. -/
def transcriptOf (conversation : List Turn) : String :=
  joinWith "\n" (conversation.map (fun m => m.role ++ ": " ++ m.content))

/-- Modelled from the spec's words for comparison with `transcriptOf`: the
transcript is the ordered Turn list rendered one line per turn as
`<role>: <text>`, lines joined by newline characters. -/
def renderTranscriptSpec : List Turn → String
  | [] => ""
  | [t] => t.role ++ ": " ++ t.content
  | t :: u :: rest =>
    t.role ++ ": " ++ t.content ++ "\n" ++ renderTranscriptSpec (u :: rest)

/-- The outcome of one `handleAnalyze` call: either nothing happens (no
loading dialog, no analysis call, no assessment), or
`api.analyzeConversation(selectedScenario, transcript, audioPayload,
conversation)` is invoked. -/
inductive AnalyzeOutcome where
  | noop
  | analyzed (scenario_id : String) (transcript : String)
      (audioPayload : List String) (conversation : List Turn)
deriving DecidableEq, Repr

/-- Embedding of `handleAnalyze` (App.tsx): it returns early when no scenario
is selected or when `recordings.conversation` is empty (before showing the
loading dialog or calling the API); otherwise it calls
`api.analyzeConversation` with the rendered transcript, the concatenated
audio payload `[...audioData, ...recordings.audio]`, and the conversation. -/
def handleAnalyze (selectedScenario : Option String) (recordings : Recordings)
    (audioData : List String) : AnalyzeOutcome :=
  match selectedScenario with
  | none => .noop
  | some sc =>
    if recordings.conversation.length = 0 then .noop
    else
      .analyzed sc (transcriptOf recordings.conversation)
        (audioData ++ recordings.audio) recordings.conversation

/-- The `canAnalyze` value `App.tsx` passes to `ChatPanel`:
`messages.length > 0`. -/
def canAnalyze (messages : List Message) : Bool :=
  decide (messages.length > 0)

/-- The `disabled` attribute of the Analyze button in `ChatPanel.tsx`:
`disabled` is the negation of the `canAnalyze` prop. -/
def analyzeDisabled (canA : Bool) : Bool :=
  !canA

/-- Helper: the code's map-then-join transcript coincides with the spec's
line-by-line rendering of the same ordered turn list. -/
theorem transcriptOf_eq_renderSpec (conv : List Turn) :
    transcriptOf conv = renderTranscriptSpec conv := by
  induction conv with
  | nil => rfl
  | cons t rest ih =>
    cases rest with
    | nil => rfl
    | cons u rest2 =>
      simp only [transcriptOf, List.map_cons] at ih ⊢
      rw [joinWith, renderTranscriptSpec, ← ih]

end SalesCoach

/-- C6 counterexample: for a scenario whose persona instructions are `"P"`,
`create_agent` stores `"P" ++ BASE_INSTRUCTIONS` — the baseline preamble is
appended AFTER the persona instructions — and that string differs from
`BASE_INSTRUCTIONS ++ "P"`, the claimed preamble-first concatenation. -/
theorem create_agent_order_counterexample :
    (SalesCoach.create_agent
        { messages := [{ role := "system", content := "P" }],
          model := none, modelParameters_temperature := none }).map
        (fun r => r.instructions) =
        some ("P" ++ SalesCoach.BASE_INSTRUCTIONS) ∧
      "P" ++ SalesCoach.BASE_INSTRUCTIONS ≠
        SalesCoach.BASE_INSTRUCTIONS ++ "P" := by
  constructor
  · rfl
  · decide

/-- C6 amended: for every scenario with at least one message, the stored
instructions are the persona instructions (the first message's content)
followed by the fixed baseline preamble — persona first, preamble appended
last, not prepended. -/
theorem create_agent_appends_base (sd : SalesCoach.ScenarioData)
    (msg0 : SalesCoach.ScenarioMessage)
    (h : sd.messages.head? = some msg0) :
    (SalesCoach.create_agent sd).map (fun r => r.instructions) =
      some (msg0.content ++ SalesCoach.BASE_INSTRUCTIONS) := by
  unfold SalesCoach.create_agent
  rw [h]
  rfl

/-- Witness for `create_agent_appends_base` at a concrete scenario. -/
theorem create_agent_appends_base_witness :
    (SalesCoach.create_agent
        { messages := [{ role := "system", content := "You are Frau Mueller" }],
          model := some "gpt-4o", modelParameters_temperature := some (7/10) }).map
        (fun r => r.instructions) =
      some ("You are Frau Mueller" ++ SalesCoach.BASE_INSTRUCTIONS) :=
  create_agent_appends_base
    { messages := [{ role := "system", content := "You are Frau Mueller" }],
      model := some "gpt-4o", modelParameters_temperature := some (7/10) }
    { role := "system", content := "You are Frau Mueller" } rfl

/-- C2: the upstream target always carries exactly one of `model` / `agent-id`
— `model` (the configured deployment name) iff the agent id has the
`local-agent` prefix (ephemeral), `agent-id` (the agent id itself) otherwise —
so the `InvalidRouting` condition (neither or both set) is false for every
input; the builder, a total function with no failure branch, accordingly never
fails, and it fails exactly when neither or both would be set (both sides of
the `iff` being everywhere false). -/
theorem build_url_routing (agent_id model_deployment_name uuid : String) :
    (SalesCoach._build_azure_websocket_url agent_id model_deployment_name
        uuid).model =
        (if agent_id.startsWith "local-agent" then some model_deployment_name
          else none) ∧
      (SalesCoach._build_azure_websocket_url agent_id model_deployment_name
          uuid).agentId =
        (if agent_id.startsWith "local-agent" then none else some agent_id) ∧
      SalesCoach.invalidRoutingCondition
        (SalesCoach._build_azure_websocket_url agent_id model_deployment_name
          uuid) = false := by
  unfold SalesCoach._build_azure_websocket_url SalesCoach.invalidRoutingCondition
  by_cases h : agent_id.startsWith "local-agent" <;> simp [h]

/-- C5: the session configuration sent upstream by `_connect_to_azure` enables
text+audio modalities, semantic VAD, deep noise suppression and server echo
cancellation for every agent, regardless of agent kind or per-session input. -/
theorem session_config_fixed_defaults (a : SalesCoach.Agent) :
    (SalesCoach._connect_to_azure a).modalities = ["text", "audio"] ∧
      (SalesCoach._connect_to_azure a).turn_detection_type =
        "azure_semantic_vad" ∧
      (SalesCoach._connect_to_azure a).input_audio_noise_reduction_type =
        "azure_deep_noise_suppression" ∧
      (SalesCoach._connect_to_azure a).input_audio_echo_cancellation_type =
        "server_echo_cancellation" := by
  unfold SalesCoach._connect_to_azure SalesCoach.session_config
  by_cases h : a.type = "local" <;> simp [h]

/-- C4 counterexample: two Azure (persistent) agents differing only in their
persona temperature produce different upstream configuration messages — the
persistent-agent branch of `_connect_to_azure` still sends
`temperature=agent_data["temperature"]`, a persona-derived field beyond the
audio/voice/avatar parameters, so the claim that persistent agents get only
audio/voice/avatar parameters is false. -/
theorem persistent_config_counterexample :
    (SalesCoach._connect_to_azure
        { id := "asst_xyz789", scenario_id := "scenario2",
          instructions := none, model := "gpt-4o", temperature := 4/5,
          type := "azure" }).temperature = 4/5 ∧
      SalesCoach._connect_to_azure
          { id := "asst_xyz789", scenario_id := "scenario2",
            instructions := none, model := "gpt-4o", temperature := 4/5,
            type := "azure" } ≠
        SalesCoach._connect_to_azure
          { id := "asst_xyz789", scenario_id := "scenario2",
            instructions := none, model := "gpt-4o", temperature := 7/10,
            type := "azure" } := by
  constructor
  · rfl
  · intro h
    have ht := congrArg SalesCoach.SessionConfig.temperature h
    simp only [SalesCoach._connect_to_azure, SalesCoach.session_config] at ht
    norm_num at ht

/-- C4 amended: the configuration built for a local (ephemeral) agent embeds
that agent's stored instructions and temperature; the one built for a
persistent (Azure-registered) agent omits instructions (`None`) but still
sends the agent's temperature alongside the audio/voice/avatar parameters. -/
theorem connect_config_by_kind (a : SalesCoach.Agent) :
    (a.type = "local" →
        (SalesCoach._connect_to_azure a).instructions = a.instructions ∧
          (SalesCoach._connect_to_azure a).temperature = a.temperature) ∧
      (a.type ≠ "local" →
        (SalesCoach._connect_to_azure a).instructions = none ∧
          (SalesCoach._connect_to_azure a).temperature = a.temperature) := by
  unfold SalesCoach._connect_to_azure SalesCoach.session_config
  by_cases h : a.type = "local" <;> simp [h]

/-- Witness for `connect_config_by_kind` at a concrete local agent. -/
theorem connect_config_by_kind_witness :
    (SalesCoach._connect_to_azure
        { id := "local-agent-abc123", scenario_id := "scenario1",
          instructions := some "You are Frau Mueller", model := "gpt-4o",
          temperature := 7/10, type := "local" }).instructions =
        some "You are Frau Mueller" :=
  ((connect_config_by_kind
      { id := "local-agent-abc123", scenario_id := "scenario1",
        instructions := some "You are Frau Mueller", model := "gpt-4o",
        temperature := 7/10, type := "local" }).1 rfl).1

/-- C1: in each direction independently, the stream of messages the relay
sends to the destination connection is a subsequence (`List.Sublist`) of the
stream received from the source connection: forwarding keeps the relative
order and never reorders, batches, or coalesces messages. -/
theorem forward_preserves_order (msgs : List SalesCoach.WsMessage) :
    (SalesCoach._forward_client_to_azure msgs).Sublist msgs ∧
      (SalesCoach._forward_azure_to_client msgs).Sublist msgs :=
  ⟨List.filter_sublist msgs, List.filter_sublist msgs⟩

/-- C3 counterexample: a message of unrecognized type (here
`"session.custom.unknown"`) is NOT forwarded by either forwarding duty — the
code forwards only `input_audio_buffer.append` (client→Azure) and only
`response.audio.delta` (Azure→client), silently dropping everything else, so
the claimed fail-open forwarding is false. -/
theorem unrecognized_dropped_counterexample :
    SalesCoach._forward_client_to_azure
        [{ type := "session.custom.unknown", payload := "p" }] = [] ∧
      SalesCoach._forward_azure_to_client
        [{ type := "session.custom.unknown", payload := "p" }] = [] := by
  constructor <;> rfl

/-- C3 amended: the forwarding duties are fail-closed, not fail-open — every
message whose type is not the single recognized type of its direction is
dropped (it never appears in the forwarded stream). -/
theorem unrecognized_dropped (m : SalesCoach.WsMessage)
    (msgs : List SalesCoach.WsMessage)
    (hc : m.type ≠ "input_audio_buffer.append")
    (ha : m.type ≠ "response.audio.delta") :
    m ∉ SalesCoach._forward_client_to_azure msgs ∧
      m ∉ SalesCoach._forward_azure_to_client msgs := by
  constructor <;> intro hmem
  · have := List.of_mem_filter hmem
    simp only [beq_iff_eq] at this
    exact hc this
  · have := List.of_mem_filter hmem
    simp only [beq_iff_eq] at this
    exact ha this

/-- Witness for `unrecognized_dropped` at a concrete message and stream. -/
theorem unrecognized_dropped_witness :
    ({ type := "session.updated", payload := "q" } : SalesCoach.WsMessage) ∉
        SalesCoach._forward_client_to_azure
          [{ type := "session.updated", payload := "q" }] ∧
      ({ type := "session.updated", payload := "q" } : SalesCoach.WsMessage) ∉
        SalesCoach._forward_azure_to_client
          [{ type := "session.updated", payload := "q" }] :=
  unrecognized_dropped
    { type := "session.updated", payload := "q" }
    [{ type := "session.updated", payload := "q" }]
    (by decide) (by decide)

/-- C7: when a `session.updated` message carries connectivity fields under
the avatar-namespaced keys (truthy values), `handleWebRTCMessage` resolves
each field through the ordered fallback chain with the avatar-namespaced key
first, and hands exactly the avatar-namespaced servers, username and
credential to the media-negotiation collaborator (`setupWebRTC`), whatever
the `rtc`-namespaced or top-level keys hold. -/
theorem avatar_keys_take_priority (msg : SalesCoach.WebRTCMsg)
    (so : SalesCoach.SessionObj) (a : SalesCoach.AvatarSection)
    (hty : msg.type = "session.updated")
    (hsess : msg.session = some so)
    (hav : so.avatar = some a)
    (hs : a.ice_servers.truthy = true)
    (hu : a.username.truthy = true)
    (hc : a.credential.truthy = true) :
    SalesCoach.handleWebRTCMessage msg =
      SalesCoach.WebRTCAction.setupCall a.ice_servers a.username a.credential := by
  simp only [SalesCoach.handleWebRTCMessage, SalesCoach.extractServers,
    SalesCoach.extractUsername, SalesCoach.extractCredential,
    SalesCoach.chainAvatar, SalesCoach.chainRtc, SalesCoach.chainTop,
    SalesCoach.jsOr, hty, hsess, hav]
  simp [hs, hu, hc]

/-- Witness for `avatar_keys_take_priority`: a concrete `session.updated`
message whose avatar-, rtc- and top-level keys all disagree; the avatar
values win. -/
theorem avatar_keys_take_priority_witness :
    SalesCoach.handleWebRTCMessage
        { type := "session.updated",
          session := some
            { avatar := some
                { ice_servers := SalesCoach.JSVal.arr ["turn:avatar.example"],
                  username := SalesCoach.JSVal.str "uAvatar",
                  ice_username := SalesCoach.JSVal.str "uLegacy",
                  credential := SalesCoach.JSVal.str "cAvatar",
                  ice_credential := SalesCoach.JSVal.str "cLegacy" },
              rtc := some
                { ice_servers := SalesCoach.JSVal.arr ["turn:rtc.example"],
                  ice_username := SalesCoach.JSVal.str "uRtc",
                  ice_credential := SalesCoach.JSVal.str "cRtc" },
              ice_servers := SalesCoach.JSVal.arr ["turn:top.example"],
              ice_username := SalesCoach.JSVal.str "uTop",
              ice_credential := SalesCoach.JSVal.str "cTop" },
          server_sdp := SalesCoach.JSVal.undef,
          sdp := SalesCoach.JSVal.undef,
          answer := SalesCoach.JSVal.undef } =
      SalesCoach.WebRTCAction.setupCall
        (SalesCoach.JSVal.arr ["turn:avatar.example"])
        (SalesCoach.JSVal.str "uAvatar")
        (SalesCoach.JSVal.str "cAvatar") :=
  avatar_keys_take_priority _
    { avatar := some
        { ice_servers := SalesCoach.JSVal.arr ["turn:avatar.example"],
          username := SalesCoach.JSVal.str "uAvatar",
          ice_username := SalesCoach.JSVal.str "uLegacy",
          credential := SalesCoach.JSVal.str "cAvatar",
          ice_credential := SalesCoach.JSVal.str "cLegacy" },
      rtc := some
        { ice_servers := SalesCoach.JSVal.arr ["turn:rtc.example"],
          ice_username := SalesCoach.JSVal.str "uRtc",
          ice_credential := SalesCoach.JSVal.str "cRtc" },
      ice_servers := SalesCoach.JSVal.arr ["turn:top.example"],
      ice_username := SalesCoach.JSVal.str "uTop",
      ice_credential := SalesCoach.JSVal.str "cTop" }
    { ice_servers := SalesCoach.JSVal.arr ["turn:avatar.example"],
      username := SalesCoach.JSVal.str "uAvatar",
      ice_username := SalesCoach.JSVal.str "uLegacy",
      credential := SalesCoach.JSVal.str "cAvatar",
      ice_credential := SalesCoach.JSVal.str "cLegacy" }
    rfl rfl rfl (by decide) (by decide) (by decide)

/-- C8: every session-description offer is wrapped into a
`session.avatar.connect` message carrying the offer as `client_sdp` and
dispatched through the same `send` channel as every other outbound message —
it is appended, alone, at the tail of the single ordered outbound stream. -/
theorem sendOffer_ordered_channel (outbound : List SalesCoach.OutboundMessage)
    (sdp : String) :
    SalesCoach.sendOffer outbound sdp =
        SalesCoach.send outbound
          { type := "session.avatar.connect", client_sdp := some sdp,
            audio := none } ∧
      SalesCoach.send outbound
          { type := "session.avatar.connect", client_sdp := some sdp,
            audio := none } =
        outbound ++
          [{ type := "session.avatar.connect", client_sdp := some sdp,
             audio := none }] :=
  ⟨rfl, rfl⟩

/-- C9: the transcript `handleAnalyze` hands to the analysis collaborator is
exactly the recorded conversation rendered in order, one `<role>: <text>`
line per turn joined by newlines (the spec-side rendering
`renderTranscriptSpec`), and the turn list itself is passed along unchanged —
nothing added, dropped, or reordered. -/
theorem transcript_is_ordered_rendering (sc : String) (t : SalesCoach.Turn)
    (conv : List SalesCoach.Turn) (audio ad : List String) :
    SalesCoach.handleAnalyze (some sc)
        { conversation := t :: conv, audio := audio } ad =
      SalesCoach.AnalyzeOutcome.analyzed sc
        (SalesCoach.renderTranscriptSpec (t :: conv)) (ad ++ audio)
        (t :: conv) := by
  unfold SalesCoach.handleAnalyze
  simp [SalesCoach.transcriptOf_eq_renderSpec]

/-- C10: triggering analysis on an empty recorded conversation is a no-op —
no analysis call, no loading dialog, no assessment — and the Analyze control
is disabled exactly when the message list is empty. -/
theorem analyze_empty_guard :
    (∀ (sc : Option String) (recs : SalesCoach.Recordings) (ad : List String),
        recs.conversation = [] →
          SalesCoach.handleAnalyze sc recs ad =
            SalesCoach.AnalyzeOutcome.noop) ∧
      ∀ (messages : List SalesCoach.Message),
        SalesCoach.analyzeDisabled (SalesCoach.canAnalyze messages) = true ↔
          messages = [] := by
  constructor
  · intro sc recs ad h
    unfold SalesCoach.handleAnalyze
    cases sc with
    | none => rfl
    | some s => simp [h]
  · intro messages
    cases messages with
    | nil => simp [SalesCoach.analyzeDisabled, SalesCoach.canAnalyze]
    | cons m rest => simp [SalesCoach.analyzeDisabled, SalesCoach.canAnalyze]

/-- Witness for `analyze_empty_guard` at a concrete empty recording and an
empty message list. -/
theorem analyze_empty_guard_witness :
    SalesCoach.handleAnalyze (some "scenario1")
        { conversation := [], audio := ["seg0"] } ["mic0"] =
        SalesCoach.AnalyzeOutcome.noop ∧
      SalesCoach.analyzeDisabled
        (SalesCoach.canAnalyze ([] : List SalesCoach.Message)) = true :=
  ⟨analyze_empty_guard.1 (some "scenario1")
      { conversation := [], audio := ["seg0"] } ["mic0"] rfl,
    (analyze_empty_guard.2 []).mpr rfl⟩
